import Mathlib

/-!
Verification development for the project-cctv people-counting core.

The definitions below are a shallow embedding of the tracking and
counting code in src/app/models/detection_model.py, of the health
monitor in src/app/services/video/health_monitor.py, and of the people
count in src/app/services/video/frame_processor.py.

Modelling conventions:
- Python ints are Int; counters, which are only ever set to 0 or
  incremented, are Nat; the insertion-ordered dict previous_centers is
  an association list List (Nat × Center) in insertion order.
- Real arithmetic (the 0.3 zone factor and the /2 door center) is done
  exactly over the integers with denominators cleared: a source
  comparison p <= x1 + 0.3 * w is rendered 10 * p <= 10 * x1 + 3 * w,
  and p < (x1 + x2) / 2 is rendered 2 * p < x1 + x2.  These renderings
  are exactly equivalent to the real-number comparisons because
  multiplying both sides by the positive constants 10 and 2 preserves
  order, and for the pixel magnitudes involved the float products the
  source computes are exact enough that no comparison can differ from
  the real-number one.
- The Euclidean distance comparisons dist < min_dist and
  dist < tracking_threshold are carried out on squared distances, which
  is equivalent because the square root is strictly monotone on
  nonnegative reals (and the float rounding of np.sqrt cannot reorder
  square roots of distinct small integers).
-/

namespace ProjectCCTV

/-- A pixel position, the centroid of a bounding box. -/
abbrev Center := Int × Int

/-- A bounding box x1, y1, x2, y2 as produced by the detector. -/
abbrev Box := Int × Int × Int × Int

/-- The four crossing direction strings of detection_model.py. -/
inductive Direction where
  | left_to_right
  | right_to_left
  | top_to_bottom
  | bottom_to_top
deriving Repr, DecidableEq

/-- The per-call movement_count dictionary of track_movement. -/
structure Counts where
  left_to_right : Nat
  right_to_left : Nat
  top_to_bottom : Nat
  bottom_to_top : Nat
deriving Repr, DecidableEq

/-- The all-zero movement_count a call of track_movement starts from. -/
def Counts.zero : Counts := ⟨0, 0, 0, 0⟩

/-- The tracking state of DetectionModel (detection_model.py): the
matching threshold, the previous-centers map, the monotonic track id
counter, the four cumulative directional counters, and the door
configuration. -/
structure DetectionModel where
  tracking_threshold : Nat
  previous_centers : List (Nat × Center)
  track_id : Nat
  left_to_right : Nat
  right_to_left : Nat
  top_to_bottom : Nat
  bottom_to_top : Nat
  door_defined : Bool
  door_area : Option Box
  inside_direction : String
deriving Repr, DecidableEq

/-- get_box_center: ((x1 + x2) // 2, (y1 + y2) // 2), with Python floor
division. -/
def get_box_center (box : Box) : Center :=
  (Int.fdiv (box.1 + box.2.2.1) 2, Int.fdiv (box.2.1 + box.2.2.2) 2)

/-- Squared Euclidean distance between two centers. -/
def distSq (a b : Center) : Int :=
  (a.1 - b.1) ^ 2 + (a.2 - b.2) ^ 2

/-- One iteration of the matching loop of track_movement: keep the
closest candidate seen so far that is strictly within the threshold;
min_dist starts at infinity, rendered as the none accumulator.
Distances are compared squared. -/
def matchStep (thr : Nat) (c : Center) (acc : Option (Nat × Int))
    (p : Nat × Center) : Option (Nat × Int) :=
  let d := distSq c p.2
  match acc with
  | none => if d < (thr : Int) ^ 2 then some (p.1, d) else none
  | some best =>
      if d < best.2 ∧ d < (thr : Int) ^ 2 then some (p.1, d) else some best

/-- The matching loop of track_movement: iterate over the previous
centers in insertion order. -/
def matchLoop (items : List (Nat × Center)) (thr : Nat) (c : Center) :
    Option (Nat × Int) :=
  items.foldl (matchStep thr c) none

/-- Python dict assignment current_centers[k] = v: update in place when
the key exists, else append, preserving insertion order. -/
def dictInsert (l : List (Nat × Center)) (k : Nat) (v : Center) :
    List (Nat × Center) :=
  if l.any (fun p => p.1 == k) then
    l.map (fun p => if p.1 == k then (k, v) else p)
  else l ++ [(k, v)]

/-- Python dict lookup, also the membership test k in dict. -/
def dictFind (l : List (Nat × Center)) (k : Nat) : Option Center :=
  (l.find? (fun p => p.1 == k)).map Prod.snd

/-- The fall-through code of is_crossing_door (detection_model.py lines
206-224): the horizontal center-line test, constrained to the door
y-range, then the vertical center-line test, constrained to the door
x-range.  The geometric center lines are compared with denominators
cleared, scaling by 2. -/
def centerline_fallback (da : Box) (prev curr : Center) :
    Bool × Option Direction :=
  let x1 := da.1
  let y1 := da.2.1
  let x2 := da.2.2.1
  let y2 := da.2.2.2
  let prev_x := prev.1
  let prev_y := prev.2
  let curr_x := curr.1
  let curr_y := curr.2
  let vertical_fallback : Bool × Option Direction :=
    if (x1 ≤ prev_x ∧ prev_x ≤ x2) ∧ (x1 ≤ curr_x ∧ curr_x ≤ x2) then
      if 2 * prev_y < y1 + y2 ∧ 2 * curr_y ≥ y1 + y2 then
        (true, some .top_to_bottom)
      else if 2 * prev_y ≥ y1 + y2 ∧ 2 * curr_y < y1 + y2 then
        (true, some .bottom_to_top)
      else (false, none)
    else (false, none)
  if (y1 ≤ prev_y ∧ prev_y ≤ y2) ∧ (y1 ≤ curr_y ∧ curr_y ≤ y2) then
    if 2 * prev_x < x1 + x2 ∧ 2 * curr_x ≥ x1 + x2 then
      (true, some .left_to_right)
    else if 2 * prev_x ≥ x1 + x2 ∧ 2 * curr_x < x1 + x2 then
      (true, some .right_to_left)
    else vertical_fallback
  else vertical_fallback

/-- is_crossing_door (detection_model.py lines 151-224), mirroring the
source control flow: orientation from aspect ratio, then the buffered
dual-zone test of the matching orientation with early return, falling
through to centerline_fallback, the straight-line code after the
orientation branch.  The 0.3-buffer thresholds are compared with
denominators cleared, scaling by 10. -/
def is_crossing_door (m : DetectionModel) (prev_center : Option Center)
    (current_center : Center) : Bool × Option Direction :=
  match m.door_defined, prev_center, m.door_area with
  | true, some prev, some da =>
    let x1 := da.1
    let y1 := da.2.1
    let x2 := da.2.2.1
    let y2 := da.2.2.2
    let door_width := x2 - x1
    let door_height := y2 - y1
    let prev_x := prev.1
    let prev_y := prev.2
    let curr_x := current_center.1
    let curr_y := current_center.2
    let fallback : Bool × Option Direction :=
      centerline_fallback da prev current_center
    if door_height > door_width then
      if (y1 ≤ prev_y ∧ prev_y ≤ y2) ∨ (y1 ≤ curr_y ∧ curr_y ≤ y2) then
        if 10 * prev_x ≤ 10 * x1 + 3 * door_width ∧
            10 * curr_x ≥ 10 * x2 - 3 * door_width then
          (true, some .left_to_right)
        else if 10 * prev_x ≥ 10 * x2 - 3 * door_width ∧
            10 * curr_x ≤ 10 * x1 + 3 * door_width then
          (true, some .right_to_left)
        else fallback
      else fallback
    else
      if (x1 ≤ prev_x ∧ prev_x ≤ x2) ∨ (x1 ≤ curr_x ∧ curr_x ≤ x2) then
        if 10 * prev_y ≤ 10 * y1 + 3 * door_height ∧
            10 * curr_y ≥ 10 * y2 - 3 * door_height then
          (true, some .top_to_bottom)
        else if 10 * prev_y ≥ 10 * y2 - 3 * door_height ∧
            10 * curr_y ≤ 10 * y1 + 3 * door_height then
          (true, some .bottom_to_top)
        else fallback
      else fallback
  | _, _, _ => (false, none)

/-- The matched-id / fresh-id assignment shared verbatim by the two
branches of track_movement: take the matchLoop winner if any, else
allocate the current track_id and advance the counter.  Returns the
assigned id and the new value of the track id counter. -/
def assignDetection (prev : List (Nat × Center)) (thr : Nat) (next_id : Nat)
    (c : Center) : Nat × Nat :=
  match matchLoop prev thr c with
  | some best => (best.1, next_id)
  | none => (next_id, next_id + 1)

/-- The if/elif chain of track_movement incrementing the cumulative
model counter named by the classified direction. -/
def applyCrossing (m : DetectionModel) (d : Direction) : DetectionModel :=
  match d with
  | .left_to_right => { m with left_to_right := m.left_to_right + 1 }
  | .right_to_left => { m with right_to_left := m.right_to_left + 1 }
  | .top_to_bottom => { m with top_to_bottom := m.top_to_bottom + 1 }
  | .bottom_to_top => { m with bottom_to_top := m.bottom_to_top + 1 }

/-- movement_count[direction] += 1 for the per-call delta. -/
def applyCount (mc : Counts) (d : Direction) : Counts :=
  match d with
  | .left_to_right => { mc with left_to_right := mc.left_to_right + 1 }
  | .right_to_left => { mc with right_to_left := mc.right_to_left + 1 }
  | .top_to_bottom => { mc with top_to_bottom := mc.top_to_bottom + 1 }
  | .bottom_to_top => { mc with bottom_to_top := mc.bottom_to_top + 1 }

/-- The loop body of the door-defined branch of track_movement
(detection_model.py lines 299-338): compute the centroid, match or
allocate an id, record the centroid in current_centers, and when the id
existed in the previous frame classify the move via is_crossing_door,
accumulating into both the per-call delta and the cumulative counters. -/
def doorStep (acc : DetectionModel × Counts × List (Nat × Center))
    (box : Box) : DetectionModel × Counts × List (Nat × Center) :=
  let m := acc.1
  let c := get_box_center box
  let am := assignDetection m.previous_centers m.tracking_threshold m.track_id c
  let m1 := { m with track_id := am.2 }
  let cc := dictInsert acc.2.2 am.1 c
  match dictFind m1.previous_centers am.1 with
  | some prevc =>
      match is_crossing_door m1 (some prevc) c with
      | (true, some d) => (applyCrossing m1 d, applyCount acc.2.1 d, cc)
      | _ => (m1, acc.2.1, cc)
  | none => (m1, acc.2.1, cc)

/-- The loop body of the no-door branch of track_movement
(detection_model.py lines 259-288): same matching, then the single
vertical center-line test at frame_width // 2. -/
def centerLineStep (center_line : Int)
    (acc : DetectionModel × Counts × List (Nat × Center))
    (box : Box) : DetectionModel × Counts × List (Nat × Center) :=
  let m := acc.1
  let c := get_box_center box
  let am := assignDetection m.previous_centers m.tracking_threshold m.track_id c
  let m1 := { m with track_id := am.2 }
  let cc := dictInsert acc.2.2 am.1 c
  match dictFind m1.previous_centers am.1 with
  | some prevc =>
      if prevc.1 < center_line ∧ c.1 ≥ center_line then
        ({ m1 with left_to_right := m1.left_to_right + 1 },
         { acc.2.1 with left_to_right := acc.2.1.left_to_right + 1 }, cc)
      else if prevc.1 ≥ center_line ∧ c.1 < center_line then
        ({ m1 with right_to_left := m1.right_to_left + 1 },
         { acc.2.1 with right_to_left := acc.2.1.right_to_left + 1 }, cc)
      else (m1, acc.2.1, cc)
  | none => (m1, acc.2.1, cc)

/-- track_movement (detection_model.py lines 242-342): run the branch
matching door_defined over the detection list, then replace
previous_centers with the current-centers map; returns the updated model
and the per-call movement_count. -/
def track_movement (m : DetectionModel) (current_boxes : List Box)
    (frame_width : Int) : DetectionModel × Counts :=
  if m.door_defined then
    let r := current_boxes.foldl doorStep (m, Counts.zero, [])
    ({ r.1 with previous_centers := r.2.2 }, r.2.1)
  else
    let center_line := Int.fdiv frame_width 2
    let r := current_boxes.foldl (centerLineStep center_line) (m, Counts.zero, [])
    ({ r.1 with previous_centers := r.2.2 }, r.2.1)

/-- get_entry_exit_count (detection_model.py lines 344-367): map the
cumulative counters to entries and exits through inside_direction, with
the left-to-right pair as default fallback. -/
def get_entry_exit_count (m : DetectionModel) : Nat × Nat :=
  if m.inside_direction = "right" then (m.left_to_right, m.right_to_left)
  else if m.inside_direction = "left" then (m.right_to_left, m.left_to_right)
  else if m.inside_direction = "down" then (m.top_to_bottom, m.bottom_to_top)
  else if m.inside_direction = "up" then (m.bottom_to_top, m.top_to_bottom)
  else (m.left_to_right, m.right_to_left)

/-- reset_counters (detection_model.py lines 369-375): zero
left_to_right and right_to_left, clear previous_centers, reset the track
id counter.  The source does not touch top_to_bottom or bottom_to_top
here. -/
def reset_counters (m : DetectionModel) : DetectionModel :=
  { m with
    left_to_right := 0
    right_to_left := 0
    previous_centers := []
    track_id := 0 }

/-- set_door_area (detection_model.py lines 91-110): install the door
rectangle, mark it defined, zero left_to_right and right_to_left and
clear previous_centers. -/
def set_door_area (m : DetectionModel) (x1 y1 x2 y2 : Int) : DetectionModel :=
  { m with
    door_area := some (x1, y1, x2, y2)
    door_defined := true
    left_to_right := 0
    right_to_left := 0
    previous_centers := [] }

/-- get_people_count (frame_processor.py lines 245-254): max(0,
entries - exits) over the counts reported by get_entry_exit_count. -/
def get_people_count (m : DetectionModel) : Int :=
  max 0 (((get_entry_exit_count m).1 : Int) - ((get_entry_exit_count m).2 : Int))

/-- The keys of an association list, in order. -/
def keys (l : List (Nat × Center)) : List Nat := l.map Prod.fst

/-- Pointwise order on the four cumulative counters of two model
states. -/
def countersLe (m m' : DetectionModel) : Prop :=
  m.left_to_right ≤ m'.left_to_right ∧ m.right_to_left ≤ m'.right_to_left ∧
  m.top_to_bottom ≤ m'.top_to_bottom ∧ m.bottom_to_top ≤ m'.bottom_to_top

/-! Spec-side definitions for the crossing-order claim.  These four
tests and their composition follow the wording of spec.md section 4.3.1:
the buffered dual-zone test of the derived orientation first, then the
horizontal center-line test, then the vertical center-line test, with
the first satisfied test winning. -/

/-- Spec wording: vertical-door dual-zone test with the 0.3 buffer. -/
def verticalZoneTest (da : Box) (prev curr : Center) : Option Direction :=
  let x1 := da.1
  let y1 := da.2.1
  let x2 := da.2.2.1
  let y2 := da.2.2.2
  if (y1 ≤ prev.2 ∧ prev.2 ≤ y2) ∨ (y1 ≤ curr.2 ∧ curr.2 ≤ y2) then
    if 10 * prev.1 ≤ 10 * x1 + 3 * (x2 - x1) ∧
        10 * curr.1 ≥ 10 * x2 - 3 * (x2 - x1) then some .left_to_right
    else if 10 * prev.1 ≥ 10 * x2 - 3 * (x2 - x1) ∧
        10 * curr.1 ≤ 10 * x1 + 3 * (x2 - x1) then some .right_to_left
    else none
  else none

/-- Spec wording: horizontal-door dual-zone test with the 0.3 buffer. -/
def horizontalZoneTest (da : Box) (prev curr : Center) : Option Direction :=
  let x1 := da.1
  let y1 := da.2.1
  let x2 := da.2.2.1
  let y2 := da.2.2.2
  if (x1 ≤ prev.1 ∧ prev.1 ≤ x2) ∨ (x1 ≤ curr.1 ∧ curr.1 ≤ x2) then
    if 10 * prev.2 ≤ 10 * y1 + 3 * (y2 - y1) ∧
        10 * curr.2 ≥ 10 * y2 - 3 * (y2 - y1) then some .top_to_bottom
    else if 10 * prev.2 ≥ 10 * y2 - 3 * (y2 - y1) ∧
        10 * curr.2 ≤ 10 * y1 + 3 * (y2 - y1) then some .bottom_to_top
    else none
  else none

/-- Spec wording: fallback crossing of the vertical center line at
x = (x1 + x2) / 2, constrained to the door y-range. -/
def horizontalCenterLineTest (da : Box) (prev curr : Center) : Option Direction :=
  let x1 := da.1
  let y1 := da.2.1
  let x2 := da.2.2.1
  let y2 := da.2.2.2
  if (y1 ≤ prev.2 ∧ prev.2 ≤ y2) ∧ (y1 ≤ curr.2 ∧ curr.2 ≤ y2) then
    if 2 * prev.1 < x1 + x2 ∧ 2 * curr.1 ≥ x1 + x2 then some .left_to_right
    else if 2 * prev.1 ≥ x1 + x2 ∧ 2 * curr.1 < x1 + x2 then some .right_to_left
    else none
  else none

/-- Spec wording: fallback crossing of the horizontal center line at
y = (y1 + y2) / 2, constrained to the door x-range. -/
def verticalCenterLineTest (da : Box) (prev curr : Center) : Option Direction :=
  let x1 := da.1
  let y1 := da.2.1
  let x2 := da.2.2.1
  let y2 := da.2.2.2
  if (x1 ≤ prev.1 ∧ prev.1 ≤ x2) ∧ (x1 ≤ curr.1 ∧ curr.1 ≤ x2) then
    if 2 * prev.2 < y1 + y2 ∧ 2 * curr.2 ≥ y1 + y2 then some .top_to_bottom
    else if 2 * prev.2 ≥ y1 + y2 ∧ 2 * curr.2 < y1 + y2 then some .bottom_to_top
    else none
  else none

/-- First satisfied test wins. -/
def firstSome (a b : Option Direction) : Option Direction :=
  match a with
  | some d => some d
  | none => b

/-- The crossing classifier as the spec states it: the dual-zone test of
the derived orientation, then the horizontal center-line test, then the
vertical center-line test, first satisfied test winning, at most one
direction signalled. -/
def crossing_by_ordered_tests (m : DetectionModel) (prev_center : Option Center)
    (current_center : Center) : Bool × Option Direction :=
  match m.door_defined, prev_center, m.door_area with
  | true, some prev, some da =>
    let zone :=
      if da.2.2.2 - da.2.1 > da.2.2.1 - da.1 then verticalZoneTest da prev current_center
      else horizontalZoneTest da prev current_center
    match firstSome zone (firstSome (horizontalCenterLineTest da prev current_center)
        (verticalCenterLineTest da prev current_center)) with
    | some d => (true, some d)
    | none => (false, none)
  | _, _, _ => (false, none)

/-- The entries/exits mapping exactly as the claims state it, keyed on
the inside direction. -/
def claim_entries_exits (dir : String) (l2r r2l t2b b2t : Nat) : Nat × Nat :=
  if dir = "right" then (l2r, r2l)
  else if dir = "left" then (r2l, l2r)
  else if dir = "down" then (t2b, b2t)
  else (b2t, t2b)

/-- The video-connection health state of HealthMonitor
(health_monitor.py).  Timestamps are exact rationals. -/
structure HealthMonitor where
  last_successful_read : ℚ
  consecutive_failures : Nat
  max_reconnect_attempts : Nat
  connection_healthy : Bool
deriving Repr, DecidableEq

/-- The initial monitor state (health_monitor.py lines 13-18):
max_reconnect_attempts is 5 and is never written anywhere else. -/
def HealthMonitor.init : HealthMonitor :=
  { last_successful_read := 0
    consecutive_failures := 0
    max_reconnect_attempts := 5
    connection_healthy := true }

/-- update_on_success (health_monitor.py lines 20-24); the current time
is passed explicitly. -/
def update_on_success (h : HealthMonitor) (now : ℚ) : HealthMonitor :=
  { h with
    consecutive_failures := 0
    connection_healthy := true
    last_successful_read := now }

/-- update_on_failure (health_monitor.py lines 26-29). -/
def update_on_failure (h : HealthMonitor) : HealthMonitor :=
  { h with
    consecutive_failures := h.consecutive_failures + 1
    connection_healthy := false }

/-- should_reconnect (health_monitor.py lines 70-76). -/
def should_reconnect (h : HealthMonitor) : Bool :=
  !h.connection_healthy && decide (0 < h.consecutive_failures)

/-- exceeded_max_attempts (health_monitor.py lines 78-84). -/
def exceeded_max_attempts (h : HealthMonitor) : Bool :=
  decide (h.max_reconnect_attempts ≤ h.consecutive_failures)

/-- process_frame (frame_processor.py lines 34-158).  A None frame is
returned unchanged; otherwise the whole body runs inside a try block
whose except clause returns the input frame.  The body, which calls the
external detector and the cv2 drawing routines, is abstracted as a
fallible pipeline returning either the annotated frame or an error. -/
def process_frame {Frame : Type} (frame : Option Frame)
    (pipeline : Frame → Except String Frame) : Option Frame :=
  match frame with
  | none => none
  | some f =>
      match pipeline f with
      | Except.ok g => some g
      | Except.error _ => some f

/-- The tracker state of the door-crossing test scenario of the spec:
door zone (100, 100, 300, 400), inside direction right, one live track
with id 0, all counters zero.  The matching threshold is a parameter:
the scenario movement spans 185 px, so the two frames form one track
exactly when the threshold exceeds 185. -/
def door_scenario_state (thr : Nat) (prev : Center) : DetectionModel :=
  { tracking_threshold := thr
    previous_centers := [(0, prev)]
    track_id := 1
    left_to_right := 0
    right_to_left := 0
    top_to_bottom := 0
    bottom_to_top := 0
    door_defined := true
    door_area := some (100, 100, 300, 400)
    inside_direction := "right" }

/-! ## Theorems -/

set_option maxRecDepth 4000

/-- Claim C1 evidence: reset_counters does not zero all four directional
counters.  At a state whose vertical counters are 4 and 5, the operation
zeroes left_to_right and right_to_left and clears the live-track map,
but top_to_bottom stays 4 and bottom_to_top stays 5, contradicting both
the claim and the source docstring, which says all movement counters are
reset. -/
theorem reset_counters_keeps_vertical_counters :
    (reset_counters
      { tracking_threshold := 50
        previous_centers := [(0, (5, 5))]
        track_id := 1
        left_to_right := 2
        right_to_left := 3
        top_to_bottom := 4
        bottom_to_top := 5
        door_defined := true
        door_area := some (100, 100, 300, 400)
        inside_direction := "right" }) =
    { tracking_threshold := 50
      previous_centers := []
      track_id := 0
      left_to_right := 0
      right_to_left := 0
      top_to_bottom := 4
      bottom_to_top := 5
      door_defined := true
      door_area := some (100, 100, 300, 400)
      inside_direction := "right" } := by
  rfl

/-- Claim C7: the reported people-in-room value is max(0, entries -
exits), never negative, with entries and exits obtained from the
cumulative counters through the inside-direction mapping stated in the
claim. -/
theorem people_in_room_formula (m : DetectionModel)
    (h : m.inside_direction = "right" ∨ m.inside_direction = "left" ∨
         m.inside_direction = "down" ∨ m.inside_direction = "up") :
    get_entry_exit_count m =
      claim_entries_exits m.inside_direction m.left_to_right m.right_to_left
        m.top_to_bottom m.bottom_to_top ∧
    get_people_count m =
      max 0 (((get_entry_exit_count m).1 : Int) - ((get_entry_exit_count m).2 : Int)) ∧
    0 ≤ get_people_count m := by
  refine ⟨?_, rfl, le_max_left 0 _⟩
  rcases h with h | h | h | h <;>
    simp [get_entry_exit_count, claim_entries_exits, h]

/-- Witness for C7 at a concrete state. -/
theorem people_in_room_formula_witness :
    get_entry_exit_count
      { tracking_threshold := 50, previous_centers := [], track_id := 0,
        left_to_right := 2, right_to_left := 7, top_to_bottom := 0, bottom_to_top := 0,
        door_defined := true, door_area := some (100, 100, 300, 400),
        inside_direction := "right" } = (2, 7) ∧
    get_people_count
      { tracking_threshold := 50, previous_centers := [], track_id := 0,
        left_to_right := 2, right_to_left := 7, top_to_bottom := 0, bottom_to_top := 0,
        door_defined := true, door_area := some (100, 100, 300, 400),
        inside_direction := "right" } = 0 := by
  have h := people_in_room_formula
    { tracking_threshold := 50, previous_centers := [], track_id := 0,
      left_to_right := 2, right_to_left := 7, top_to_bottom := 0, bottom_to_top := 0,
      door_defined := true, door_area := some (100, 100, 300, 400),
      inside_direction := "right" } (Or.inl rfl)
  refine ⟨?_, ?_⟩
  · exact h.1.trans (by decide)
  · exact h.2.1.trans (by decide)

/-- Claim C8: five consecutive failures with no intervening success make
exceeded_max_attempts true; any single success zeroes
consecutive_failures, makes exceeded_max_attempts false and the
connection healthy; should_reconnect is true exactly when the connection
is unhealthy and at least one failure is pending.  The
max_reconnect_attempts field is written only at construction, where it
is 5. -/
theorem health_monitor_contract (h : HealthMonitor) (now : ℚ)
    (hmax : h.max_reconnect_attempts = 5) :
    exceeded_max_attempts
      (update_on_failure (update_on_failure (update_on_failure
        (update_on_failure (update_on_failure h))))) = true ∧
    (update_on_success h now).consecutive_failures = 0 ∧
    exceeded_max_attempts (update_on_success h now) = false ∧
    (update_on_success h now).connection_healthy = true ∧
    (should_reconnect h = true ↔
      h.connection_healthy = false ∧ 0 < h.consecutive_failures) := by
  refine ⟨?_, rfl, ?_, rfl, ?_⟩
  · simp [exceeded_max_attempts, update_on_failure, hmax]
  · simp [exceeded_max_attempts, update_on_success, hmax]
  · simp [should_reconnect]

/-- Witness for C8 at the initial monitor state. -/
theorem health_monitor_contract_witness :
    exceeded_max_attempts
      (update_on_failure (update_on_failure (update_on_failure
        (update_on_failure (update_on_failure HealthMonitor.init))))) = true ∧
    (update_on_success HealthMonitor.init 0).consecutive_failures = 0 ∧
    exceeded_max_attempts (update_on_success HealthMonitor.init 0) = false ∧
    (update_on_success HealthMonitor.init 0).connection_healthy = true ∧
    (should_reconnect HealthMonitor.init = true ↔
      HealthMonitor.init.connection_healthy = false ∧
        0 < HealthMonitor.init.consecutive_failures) := by
  exact health_monitor_contract HealthMonitor.init 0 rfl

/-- Claim C9: process_frame never propagates an internal error past its
boundary; whenever the internal pipeline fails on a frame, the original
input frame is returned, and a missing frame is answered with none
rather than an error. -/
theorem process_frame_never_propagates (Frame : Type) (f : Frame)
    (pipeline : Frame → Except String Frame) (e : String)
    (herr : pipeline f = Except.error e) :
    process_frame (some f) pipeline = some f ∧
    process_frame (none : Option Frame) pipeline = none := by
  refine ⟨?_, rfl⟩
  simp [process_frame, herr]

/-- Witness for C9 with a pipeline that always fails. -/
theorem process_frame_never_propagates_witness :
    process_frame (some (0 : Nat)) (fun _ => Except.error "fault") = some 0 ∧
    process_frame (none : Option Nat) (fun _ => Except.error "fault") = none := by
  exact process_frame_never_propagates Nat 0 (fun _ => Except.error "fault") "fault" rfl

/-- A single candidate strictly within the threshold is matched. -/
lemma matchLoop_singleton (p : Nat × Center) (thr : Nat) (c : Center)
    (h : distSq c p.2 < (thr : Int) ^ 2) :
    matchLoop [p] thr c = some (p.1, distSq c p.2) := by
  simp [matchLoop, matchStep, h]

/-- is_crossing_door reads only the door fields of the model state. -/
lemma is_crossing_door_congr (m m' : DetectionModel) (p : Option Center)
    (c : Center) (h1 : m.door_defined = m'.door_defined)
    (h2 : m.door_area = m'.door_area) :
    is_crossing_door m p c = is_crossing_door m' p c := by
  unfold is_crossing_door
  rw [h1, h2]

/-- The door branch of track_movement, with the branch test
discharged. -/
lemma track_movement_door (m : DetectionModel) (hd : m.door_defined = true)
    (boxes : List Box) (w : Int) :
    track_movement m boxes w =
      (let r := boxes.foldl doorStep (m, Counts.zero, [])
       ({ r.1 with previous_centers := r.2.2 }, r.2.1)) := by
  unfold track_movement
  rw [if_pos hd]

/-- Shape of one door-branch loop iteration when the matching loop finds
a previous track: the found id keeps the id counter unchanged, the
centroid is recorded under it, and the crossing classification decides
the counter bumps. -/
lemma doorStep_matched (m : DetectionModel) (mc : Counts)
    (cc : List (Nat × Center)) (box : Box) (t : Nat) (d0 : Int) (pc : Center)
    (hm : matchLoop m.previous_centers m.tracking_threshold
      (get_box_center box) = some (t, d0))
    (hf : dictFind m.previous_centers t = some pc) :
    doorStep (m, mc, cc) box =
      match is_crossing_door m (some pc) (get_box_center box) with
      | (true, some d) =>
          (applyCrossing m d, applyCount mc d,
            dictInsert cc t (get_box_center box))
      | _ => (m, mc, dictInsert cc t (get_box_center box)) := by
  unfold doorStep assignDetection
  dsimp only
  rw [hm]
  dsimp only
  rw [hf]

/-- Claim C2: with door zone (100, 100, 300, 400) and inside direction
right, a track moving from (110, 250) to (295, 250) across two
consecutive frames bumps the cumulative left_to_right counter from 0 to
1 and the entries count from 0 to 1, exits staying 0; the reverse
movement bumps right_to_left and exits from 0 to 1, entries staying 0.
The threshold hypothesis makes the two frames one track, as the
scenario presupposes: the centroids are 185 px apart. -/
theorem door_crossing_scenario (thr : Nat) (h : 185 < thr) :
    (track_movement (door_scenario_state thr (110, 250))
        [(285, 240, 305, 260)] 640).1.left_to_right = 1 ∧
    get_entry_exit_count (track_movement (door_scenario_state thr (110, 250))
        [(285, 240, 305, 260)] 640).1 = (1, 0) ∧
    (track_movement (door_scenario_state thr (295, 250))
        [(100, 240, 120, 260)] 640).1.right_to_left = 1 ∧
    get_entry_exit_count (track_movement (door_scenario_state thr (295, 250))
        [(100, 240, 120, 260)] 640).1 = (0, 1) := by
  have h185 : (34225 : Int) < (thr : Int) ^ 2 := by
    have h1 : (185 : Int) < (thr : Int) := by exact_mod_cast h
    nlinarith [h1]
  have hmR : matchLoop [(0, ((110 : Int), (250 : Int)))] thr (295, 250) =
      some (0, 34225) := by
    have hd : distSq (295, 250) ((110 : Int), (250 : Int)) = 34225 := by decide
    have := matchLoop_singleton (0, (110, 250)) thr (295, 250) (by rw [hd]; exact h185)
    rw [hd] at this
    exact this
  have hmL : matchLoop [(0, ((295 : Int), (250 : Int)))] thr (110, 250) =
      some (0, 34225) := by
    have hd : distSq (110, 250) ((295 : Int), (250 : Int)) = 34225 := by decide
    have := matchLoop_singleton (0, (295, 250)) thr (110, 250) (by rw [hd]; exact h185)
    rw [hd] at this
    exact this
  have hdsR := doorStep_matched (door_scenario_state thr (110, 250)) Counts.zero []
    (285, 240, 305, 260) 0 34225 (110, 250) hmR
    (show dictFind [(0, ((110 : Int), (250 : Int)))] 0 = some (110, 250) by decide)
  have hdsL := doorStep_matched (door_scenario_state thr (295, 250)) Counts.zero []
    (100, 240, 120, 260) 0 34225 (295, 250) hmL
    (show dictFind [(0, ((295 : Int), (250 : Int)))] 0 = some (295, 250) by decide)
  have hcR : is_crossing_door (door_scenario_state thr (110, 250))
      (some (110, 250)) (get_box_center (285, 240, 305, 260)) =
      (true, some .left_to_right) := by
    rw [is_crossing_door_congr (door_scenario_state thr (110, 250))
      (door_scenario_state 50 (110, 250)) _ _ rfl rfl]
    decide
  have hcL : is_crossing_door (door_scenario_state thr (295, 250))
      (some (295, 250)) (get_box_center (100, 240, 120, 260)) =
      (true, some .right_to_left) := by
    rw [is_crossing_door_congr (door_scenario_state thr (295, 250))
      (door_scenario_state 50 (295, 250)) _ _ rfl rfl]
    decide
  rw [hcR] at hdsR
  rw [hcL] at hdsL
  dsimp only at hdsR hdsL
  have htmR : track_movement (door_scenario_state thr (110, 250))
      [(285, 240, 305, 260)] 640 =
      ({ applyCrossing (door_scenario_state thr (110, 250)) .left_to_right with
          previous_centers := dictInsert [] 0 (get_box_center (285, 240, 305, 260)) },
        applyCount Counts.zero .left_to_right) := by
    rw [track_movement_door (door_scenario_state thr (110, 250)) rfl]
    dsimp only [List.foldl]
    rw [hdsR]
  have htmL : track_movement (door_scenario_state thr (295, 250))
      [(100, 240, 120, 260)] 640 =
      ({ applyCrossing (door_scenario_state thr (295, 250)) .right_to_left with
          previous_centers := dictInsert [] 0 (get_box_center (100, 240, 120, 260)) },
        applyCount Counts.zero .right_to_left) := by
    rw [track_movement_door (door_scenario_state thr (295, 250)) rfl]
    dsimp only [List.foldl]
    rw [hdsL]
  rw [htmR, htmL]
  refine ⟨rfl, ?_, rfl, ?_⟩ <;>
    simp [get_entry_exit_count, applyCrossing, door_scenario_state]

/-- Witness for C2 at threshold 200. -/
theorem door_crossing_scenario_witness :
    185 < 200 ∧
    ((track_movement (door_scenario_state 200 (110, 250))
        [(285, 240, 305, 260)] 640).1.left_to_right = 1 ∧
      get_entry_exit_count (track_movement (door_scenario_state 200 (110, 250))
        [(285, 240, 305, 260)] 640).1 = (1, 0) ∧
      (track_movement (door_scenario_state 200 (295, 250))
        [(100, 240, 120, 260)] 640).1.right_to_left = 1 ∧
      get_entry_exit_count (track_movement (door_scenario_state 200 (295, 250))
        [(100, 240, 120, 260)] 640).1 = (0, 1)) :=
  ⟨by decide, door_crossing_scenario 200 (by decide)⟩

/-- The fall-through code equals the ordered composition of the two
spec-side center-line tests, first satisfied test winning. -/
lemma centerline_fallback_eq (da : Box) (prev curr : Center) :
    centerline_fallback da prev curr =
      match firstSome (horizontalCenterLineTest da prev curr)
          (verticalCenterLineTest da prev curr) with
      | some d => (true, some d)
      | none => (false, none) := by
  obtain ⟨x1, y1, x2, y2⟩ := da
  unfold centerline_fallback horizontalCenterLineTest verticalCenterLineTest
    firstSome
  dsimp only
  split_ifs <;> rfl

/-- Claim C3: is_crossing_door signals at most one direction per call
and equals the ordered first-match-wins composition of three tests: the
buffered dual-zone test of the derived orientation, then the horizontal
center-line fallback, then the vertical center-line fallback, so a
crossing satisfying several tests is classified once, by the first. -/
theorem is_crossing_door_first_match_wins (m : DetectionModel)
    (prev_center : Option Center) (current_center : Center) :
    is_crossing_door m prev_center current_center =
      crossing_by_ordered_tests m prev_center current_center := by
  obtain ⟨thr, prev, tid, a, b, c, d, dd, da, dir⟩ := m
  cases dd
  · rfl
  · cases prev_center
    · rfl
    · cases da
      · rfl
      · rename_i p da
        unfold is_crossing_door crossing_by_ordered_tests verticalZoneTest
          horizontalZoneTest
        dsimp only
        rw [centerline_fallback_eq]
        obtain ⟨x1, y1, x2, y2⟩ := da
        obtain ⟨px, py⟩ := p
        obtain ⟨cx, cy⟩ := current_center
        dsimp only
        split_ifs <;> simp [firstSome]

lemma countersLe_refl (m : DetectionModel) : countersLe m m :=
  ⟨le_refl _, le_refl _, le_refl _, le_refl _⟩

lemma countersLe_trans {a b c : DetectionModel} (h1 : countersLe a b)
    (h2 : countersLe b c) : countersLe a c :=
  ⟨h1.1.trans h2.1, h1.2.1.trans h2.2.1, h1.2.2.1.trans h2.2.2.1,
    h1.2.2.2.trans h2.2.2.2⟩

lemma applyCrossing_counters (m : DetectionModel) (d : Direction) :
    countersLe m (applyCrossing m d) := by
  cases d <;>
    exact ⟨by simp [applyCrossing], by simp [applyCrossing],
      by simp [applyCrossing], by simp [applyCrossing]⟩

lemma doorStep_counters (acc : DetectionModel × Counts × List (Nat × Center))
    (box : Box) : countersLe acc.1 (doorStep acc box).1 := by
  obtain ⟨m, mc, cc⟩ := acc
  unfold doorStep assignDetection
  dsimp only
  split
  · split
    · refine countersLe_trans ?_ (applyCrossing_counters _ _)
      exact ⟨le_refl _, le_refl _, le_refl _, le_refl _⟩
    · exact ⟨le_refl _, le_refl _, le_refl _, le_refl _⟩
  · exact ⟨le_refl _, le_refl _, le_refl _, le_refl _⟩

lemma centerLineStep_counters (cl : Int)
    (acc : DetectionModel × Counts × List (Nat × Center)) (box : Box) :
    countersLe acc.1 (centerLineStep cl acc box).1 := by
  obtain ⟨m, mc, cc⟩ := acc
  unfold centerLineStep assignDetection
  dsimp only
  split
  · split_ifs
    · exact ⟨Nat.le_succ _, le_refl _, le_refl _, le_refl _⟩
    · exact ⟨le_refl _, Nat.le_succ _, le_refl _, le_refl _⟩
    · exact ⟨le_refl _, le_refl _, le_refl _, le_refl _⟩
  · exact ⟨le_refl _, le_refl _, le_refl _, le_refl _⟩

lemma foldl_doorStep_counters (boxes : List Box) :
    ∀ acc : DetectionModel × Counts × List (Nat × Center),
      countersLe acc.1 (boxes.foldl doorStep acc).1 := by
  induction boxes with
  | nil => intro acc; exact countersLe_refl _
  | cons b bs ih =>
      intro acc
      exact countersLe_trans (doorStep_counters acc b) (ih (doorStep acc b))

lemma foldl_centerLineStep_counters (cl : Int) (boxes : List Box) :
    ∀ acc : DetectionModel × Counts × List (Nat × Center),
      countersLe acc.1 (boxes.foldl (centerLineStep cl) acc).1 := by
  induction boxes with
  | nil => intro acc; exact countersLe_refl _
  | cons b bs ih =>
      intro acc
      exact countersLe_trans (centerLineStep_counters cl acc b)
        (ih (centerLineStep cl acc b))

/-- Claim C4: every call of track_movement leaves each of the four
cumulative directional counters greater than or equal to its previous
value, for every tracker state and every detection list; a counter moves
only by the crossing-classification increments inside the call. -/
theorem track_movement_counters_monotone (m : DetectionModel)
    (boxes : List Box) (w : Int) :
    m.left_to_right ≤ (track_movement m boxes w).1.left_to_right ∧
    m.right_to_left ≤ (track_movement m boxes w).1.right_to_left ∧
    m.top_to_bottom ≤ (track_movement m boxes w).1.top_to_bottom ∧
    m.bottom_to_top ≤ (track_movement m boxes w).1.bottom_to_top := by
  unfold track_movement
  split
  · exact foldl_doorStep_counters boxes (m, Counts.zero, [])
  · exact foldl_centerLineStep_counters _ boxes (m, Counts.zero, [])

lemma matchStep_isSome (thr : Nat) (c : Center) (acc : Option (Nat × Int))
    (p : Nat × Center) (h : acc.isSome ∨ distSq c p.2 < (thr : Int) ^ 2) :
    (matchStep thr c acc p).isSome := by
  rcases acc with _ | best
  · rcases h with h | h
    · simp at h
    · simp [matchStep, h]
  · unfold matchStep
    dsimp only
    split_ifs <;> simp

/-- The matching loop returns a candidate whenever some entry is
strictly within the threshold. -/
lemma foldl_matchStep_isSome (thr : Nat) (c : Center) :
    ∀ (items : List (Nat × Center)) (acc : Option (Nat × Int)),
      (acc.isSome ∨ ∃ p ∈ items, distSq c p.2 < (thr : Int) ^ 2) →
      (items.foldl (matchStep thr c) acc).isSome := by
  intro items
  induction items with
  | nil =>
      intro acc h
      rcases h with h | ⟨p, hp, _⟩
      · simpa using h
      · simp at hp
  | cons q qs ih =>
      intro acc h
      rw [List.foldl_cons]
      apply ih
      rcases h with h | ⟨p, hp, hd⟩
      · exact Or.inl (matchStep_isSome thr c acc q (Or.inl h))
      · rcases List.mem_cons.mp hp with heq | hp
        · exact Or.inl (matchStep_isSome thr c acc q (Or.inr (heq ▸ hd)))
        · exact Or.inr ⟨p, hp, hd⟩

/-- Any candidate the matching loop returns either was the start
accumulator or is an entry of the list strictly within the threshold,
carrying its own squared distance. -/
lemma foldl_matchStep_origin (thr : Nat) (c : Center) :
    ∀ (items : List (Nat × Center)) (acc : Option (Nat × Int)) (t : Nat) (d : Int),
      items.foldl (matchStep thr c) acc = some (t, d) →
      acc = some (t, d) ∨
        ∃ pc, (t, pc) ∈ items ∧ d = distSq c pc ∧ d < (thr : Int) ^ 2 := by
  intro items
  induction items with
  | nil =>
      intro acc t d h
      exact Or.inl (by simpa using h)
  | cons q qs ih =>
      intro acc t d h
      rw [List.foldl_cons] at h
      rcases ih (matchStep thr c acc q) t d h with h1 | ⟨pc, hpc, hd⟩
      · rcases acc with _ | best
        · unfold matchStep at h1
          dsimp only at h1
          split_ifs at h1 with hc
          · simp only [Option.some.injEq, Prod.mk.injEq] at h1
            obtain ⟨ha, hb⟩ := h1
            refine Or.inr ⟨q.2, ?_, hb.symm, ?_⟩
            · rw [← ha]
              exact List.mem_cons_self q qs
            · rw [← hb]
              exact hc
        · unfold matchStep at h1
          dsimp only at h1
          split_ifs at h1 with hc
          · simp only [Option.some.injEq, Prod.mk.injEq] at h1
            obtain ⟨ha, hb⟩ := h1
            refine Or.inr ⟨q.2, ?_, hb.symm, ?_⟩
            · rw [← ha]
              exact List.mem_cons_self q qs
            · rw [← hb]
              exact hc.2
          · exact Or.inl h1
      · exact Or.inr ⟨pc, List.mem_cons_of_mem q hpc, hd⟩

/-- When every entry is at or beyond the threshold, no match is
found. -/
lemma matchLoop_none (thr : Nat) (c : Center) (items : List (Nat × Center))
    (h : ∀ p ∈ items, (thr : Int) ^ 2 ≤ distSq c p.2) :
    matchLoop items thr c = none := by
  unfold matchLoop
  induction items with
  | nil => rfl
  | cons q qs ih =>
      rw [List.foldl_cons]
      have hq : matchStep thr c none q = none := by
        unfold matchStep
        dsimp only
        rw [if_neg (not_lt.mpr (h q (List.mem_cons_self q qs)))]
      rw [hq]
      exact ih fun p hp => h p (List.mem_cons_of_mem q hp)

/-- When exactly one track is strictly within the threshold, the
matching loop selects that track. -/
lemma matchLoop_unique (items : List (Nat × Center)) (thr : Nat) (c : Center)
    (t : Nat) (pc : Center) (hmem : (t, pc) ∈ items)
    (hnear : distSq c pc < (thr : Int) ^ 2)
    (hfar : ∀ u qc, (u, qc) ∈ items → u ≠ t →
      (thr : Int) ^ 2 ≤ distSq c qc) :
    ∃ d, matchLoop items thr c = some (t, d) := by
  have hs := foldl_matchStep_isSome thr c items none
    (Or.inr ⟨(t, pc), hmem, hnear⟩)
  obtain ⟨⟨u, d⟩, hu⟩ := Option.isSome_iff_exists.mp hs
  rcases foldl_matchStep_origin thr c items none u d hu with h | ⟨qc, hqc, hd, hlt⟩
  · simp at h
  · by_cases hut : u = t
    · subst hut
      exact ⟨d, hu⟩
    · exact absurd hlt (not_lt.mpr (hd ▸ hfar u qc hqc hut))

lemma dictInsert_nil (k : Nat) (v : Center) : dictInsert [] k v = [(k, v)] := by
  simp [dictInsert]

/-- The components of one door-branch iteration that do not depend on
the crossing classification: previous_centers is read-only during the
loop, the id counter moves as assignDetection says, and the assigned id
gets the centroid in the current-centers map. -/
lemma doorStep_components (m : DetectionModel) (mc : Counts)
    (cc : List (Nat × Center)) (box : Box) :
    (doorStep (m, mc, cc) box).1.previous_centers = m.previous_centers ∧
    (doorStep (m, mc, cc) box).1.track_id =
      (assignDetection m.previous_centers m.tracking_threshold m.track_id
        (get_box_center box)).2 ∧
    (doorStep (m, mc, cc) box).2.2 =
      dictInsert cc (assignDetection m.previous_centers m.tracking_threshold
        m.track_id (get_box_center box)).1 (get_box_center box) := by
  unfold doorStep
  dsimp only
  split
  · split
    · rename_i d _
      cases d <;> exact ⟨rfl, rfl, rfl⟩
    · exact ⟨rfl, rfl, rfl⟩
  · exact ⟨rfl, rfl, rfl⟩

/-- The same components for the no-door branch. -/
lemma centerLineStep_components (cl : Int) (m : DetectionModel) (mc : Counts)
    (cc : List (Nat × Center)) (box : Box) :
    (centerLineStep cl (m, mc, cc) box).1.previous_centers = m.previous_centers ∧
    (centerLineStep cl (m, mc, cc) box).1.track_id =
      (assignDetection m.previous_centers m.tracking_threshold m.track_id
        (get_box_center box)).2 ∧
    (centerLineStep cl (m, mc, cc) box).2.2 =
      dictInsert cc (assignDetection m.previous_centers m.tracking_threshold
        m.track_id (get_box_center box)).1 (get_box_center box) := by
  unfold centerLineStep
  dsimp only
  split
  · split_ifs <;> exact ⟨rfl, rfl, rfl⟩
  · exact ⟨rfl, rfl, rfl⟩

/-- For a single detection, track_movement stores the centroid under the
id assignDetection picks and moves the id counter accordingly. -/
lemma track_movement_single_components (m : DetectionModel) (box : Box)
    (w : Int) :
    (track_movement m [box] w).1.previous_centers =
      dictInsert [] (assignDetection m.previous_centers m.tracking_threshold
        m.track_id (get_box_center box)).1 (get_box_center box) ∧
    (track_movement m [box] w).1.track_id =
      (assignDetection m.previous_centers m.tracking_threshold m.track_id
        (get_box_center box)).2 := by
  unfold track_movement
  split
  · dsimp only [List.foldl]
    exact ⟨(doorStep_components m Counts.zero [] box).2.2,
      (doorStep_components m Counts.zero [] box).2.1⟩
  · dsimp only [List.foldl]
    exact ⟨(centerLineStep_components _ m Counts.zero [] box).2.2,
      (centerLineStep_components _ m Counts.zero [] box).2.1⟩

/-- Claim C5: a detection strictly within the threshold of exactly one
existing track, and at or beyond it for every other, is assigned to that
one track and no fresh id is consumed; a detection at or beyond the
threshold from every track gets the fresh id from the monotonic counter,
which then advances.  Distances are compared squared, which matches the
Euclidean comparison exactly. -/
theorem greedy_match_disambiguation (m : DetectionModel) (box : Box) (w : Int) :
    (∀ t pc, (t, pc) ∈ m.previous_centers →
      distSq (get_box_center box) pc < (m.tracking_threshold : Int) ^ 2 →
      (∀ u qc, (u, qc) ∈ m.previous_centers → u ≠ t →
        (m.tracking_threshold : Int) ^ 2 ≤ distSq (get_box_center box) qc) →
      (track_movement m [box] w).1.previous_centers =
          [(t, get_box_center box)] ∧
        (track_movement m [box] w).1.track_id = m.track_id) ∧
    ((∀ u qc, (u, qc) ∈ m.previous_centers →
        (m.tracking_threshold : Int) ^ 2 ≤ distSq (get_box_center box) qc) →
      (track_movement m [box] w).1.previous_centers =
          [(m.track_id, get_box_center box)] ∧
        (track_movement m [box] w).1.track_id = m.track_id + 1) := by
  obtain ⟨h1, h2⟩ := track_movement_single_components m box w
  constructor
  · intro t pc hmem hnear hfar
    obtain ⟨d, hm⟩ := matchLoop_unique m.previous_centers m.tracking_threshold
      (get_box_center box) t pc hmem hnear hfar
    have ha : assignDetection m.previous_centers m.tracking_threshold
        m.track_id (get_box_center box) = (t, m.track_id) := by
      unfold assignDetection
      rw [hm]
    rw [ha] at h1 h2
    exact ⟨h1.trans (dictInsert_nil t (get_box_center box)), h2⟩
  · intro hfar
    have hm := matchLoop_none m.tracking_threshold (get_box_center box)
      m.previous_centers (fun p hp => hfar p.1 p.2 hp)
    have ha : assignDetection m.previous_centers m.tracking_threshold
        m.track_id (get_box_center box) = (m.track_id, m.track_id + 1) := by
      unfold assignDetection
      rw [hm]
    rw [ha] at h1 h2
    exact ⟨h1.trans (dictInsert_nil m.track_id (get_box_center box)), h2⟩

/-- Witness for C5: track 3 at (100, 100) is the unique match for a
detection centred at (105, 100) among tracks 3 and 8; a detection
centred at (500, 500) matches nothing and takes the fresh id 9. -/
theorem greedy_match_disambiguation_witness :
    ((track_movement
      { tracking_threshold := 50
        previous_centers := [(3, (100, 100)), (8, (400, 400))]
        track_id := 9
        left_to_right := 0, right_to_left := 0, top_to_bottom := 0, bottom_to_top := 0
        door_defined := true
        door_area := some (100, 100, 300, 400)
        inside_direction := "right" } [(95, 90, 115, 110)] 640).1.previous_centers =
        [(3, (105, 100))] ∧
      (track_movement
      { tracking_threshold := 50
        previous_centers := [(3, (100, 100)), (8, (400, 400))]
        track_id := 9
        left_to_right := 0, right_to_left := 0, top_to_bottom := 0, bottom_to_top := 0
        door_defined := true
        door_area := some (100, 100, 300, 400)
        inside_direction := "right" } [(95, 90, 115, 110)] 640).1.track_id = 9) ∧
    ((track_movement
      { tracking_threshold := 50
        previous_centers := [(3, (100, 100)), (8, (400, 400))]
        track_id := 9
        left_to_right := 0, right_to_left := 0, top_to_bottom := 0, bottom_to_top := 0
        door_defined := true
        door_area := some (100, 100, 300, 400)
        inside_direction := "right" } [(490, 490, 510, 510)] 640).1.previous_centers =
        [(9, (500, 500))] ∧
      (track_movement
      { tracking_threshold := 50
        previous_centers := [(3, (100, 100)), (8, (400, 400))]
        track_id := 9
        left_to_right := 0, right_to_left := 0, top_to_bottom := 0, bottom_to_top := 0
        door_defined := true
        door_area := some (100, 100, 300, 400)
        inside_direction := "right" } [(490, 490, 510, 510)] 640).1.track_id = 10) := by
  constructor
  · refine (greedy_match_disambiguation
      { tracking_threshold := 50
        previous_centers := [(3, (100, 100)), (8, (400, 400))]
        track_id := 9
        left_to_right := 0, right_to_left := 0, top_to_bottom := 0, bottom_to_top := 0
        door_defined := true
        door_area := some (100, 100, 300, 400)
        inside_direction := "right" } (95, 90, 115, 110) 640).1 3 (100, 100)
      (by decide) (by decide) ?_
    intro u qc hmem hne
    rcases List.mem_cons.mp hmem with h | h
    · exact absurd (congrArg Prod.fst h) hne
    · rcases List.mem_singleton.mp h with h
      rw [show qc = (400, 400) from congrArg Prod.snd h]
      decide
  · refine (greedy_match_disambiguation
      { tracking_threshold := 50
        previous_centers := [(3, (100, 100)), (8, (400, 400))]
        track_id := 9
        left_to_right := 0, right_to_left := 0, top_to_bottom := 0, bottom_to_top := 0
        door_defined := true
        door_area := some (100, 100, 300, 400)
        inside_direction := "right" } (490, 490, 510, 510) 640).2 ?_
    intro u qc hmem
    rcases List.mem_cons.mp hmem with h | h
    · rw [show qc = (100, 100) from congrArg Prod.snd h]
      decide
    · rcases List.mem_singleton.mp h with h
      rw [show qc = (400, 400) from congrArg Prod.snd h]
      decide

/-- A key of the map after a dict assignment is an old key or the
assigned key. -/
lemma keys_dictInsert (l : List (Nat × Center)) (k : Nat) (v : Center)
    (k' : Nat) (h : k' ∈ keys (dictInsert l k v)) : k' ∈ keys l ∨ k' = k := by
  unfold dictInsert keys at h
  split_ifs at h with hc
  · rw [List.map_map] at h
    rcases List.mem_map.mp h with ⟨p, hp, hpe⟩
    dsimp only [Function.comp] at hpe
    split_ifs at hpe with hq
    · exact Or.inr hpe.symm
    · exact Or.inl (hpe ▸ List.mem_map_of_mem Prod.fst hp)
  · rw [List.map_append] at h
    rcases List.mem_append.mp h with h | h
    · exact Or.inl h
    · simp at h
      exact Or.inr h

/-- A matched id always comes from the previous-centers map. -/
lemma matchLoop_key_mem (items : List (Nat × Center)) (thr : Nat) (c : Center)
    (t : Nat) (d : Int) (h : matchLoop items thr c = some (t, d)) :
    t ∈ keys items := by
  rcases foldl_matchStep_origin thr c items none t d h with h1 | ⟨pc, hpc, _⟩
  · simp at h1
  · exact List.mem_map_of_mem Prod.fst hpc

/-- Id bookkeeping along either per-box loop, for any step function with
the assignDetection components: previous_centers is untouched, the id
counter never decreases below the start state, and every key of the
current-centers map is an old live key or a fresh id allocated in this
call, lying in the consumed counter range. -/
lemma foldl_ids_invariant
    (step : DetectionModel × Counts × List (Nat × Center) → Box →
      DetectionModel × Counts × List (Nat × Center))
    (hcomp : ∀ m mc cc box,
      (step (m, mc, cc) box).1.previous_centers = m.previous_centers ∧
      (step (m, mc, cc) box).1.track_id =
        (assignDetection m.previous_centers m.tracking_threshold m.track_id
          (get_box_center box)).2 ∧
      (step (m, mc, cc) box).2.2 =
        dictInsert cc (assignDetection m.previous_centers m.tracking_threshold
          m.track_id (get_box_center box)).1 (get_box_center box))
    (m0 : DetectionModel) :
    ∀ (boxes : List Box) (acc : DetectionModel × Counts × List (Nat × Center)),
      acc.1.previous_centers = m0.previous_centers →
      m0.track_id ≤ acc.1.track_id →
      (∀ k ∈ keys acc.2.2, k ∈ keys m0.previous_centers ∨
        (m0.track_id ≤ k ∧ k < acc.1.track_id)) →
      (boxes.foldl step acc).1.previous_centers = m0.previous_centers ∧
      m0.track_id ≤ (boxes.foldl step acc).1.track_id ∧
      (∀ k ∈ keys (boxes.foldl step acc).2.2,
        k ∈ keys m0.previous_centers ∨
          (m0.track_id ≤ k ∧ k < (boxes.foldl step acc).1.track_id)) := by
  intro boxes
  induction boxes with
  | nil =>
      intro acc h1 h2 h3
      exact ⟨h1, h2, h3⟩
  | cons b bs ih =>
      intro acc h1 h2 h3
      obtain ⟨m, mc, cc⟩ := acc
      rw [List.foldl_cons]
      obtain ⟨hp, ht, hcc⟩ := hcomp m mc cc b
      refine ih (step (m, mc, cc) b) (hp.trans h1) ?_ ?_
      · rw [ht]
        unfold assignDetection
        rcases hml : matchLoop m.previous_centers m.tracking_threshold
          (get_box_center b) with _ | best
        · exact le_trans h2 (Nat.le_succ _)
        · exact h2
      · intro k hk
        rw [hcc] at hk
        rcases keys_dictInsert cc _ (get_box_center b) k hk with hold | hnew
        · rcases h3 k hold with h | ⟨hlo, hhi⟩
          · exact Or.inl h
          · refine Or.inr ⟨hlo, lt_of_lt_of_le hhi ?_⟩
            rw [ht]
            unfold assignDetection
            rcases matchLoop m.previous_centers m.tracking_threshold
              (get_box_center b) with _ | best
            · exact Nat.le_succ _
            · exact le_refl _
        · subst hnew
          rw [ht]
          unfold assignDetection
          rcases hml : matchLoop m.previous_centers m.tracking_threshold
            (get_box_center b) with _ | ⟨u, d⟩
          · dsimp only
            exact Or.inr ⟨h2, Nat.lt_succ_self _⟩
          · dsimp only
            have h1m : m.previous_centers = m0.previous_centers := h1
            rw [h1m] at hml
            exact Or.inl (matchLoop_key_mem _ _ _ u d hml)

/-- Claim C6: across any call of track_movement, fresh track ids come
from the monotonic counter and ids are never reused: whenever every live
id is below the counter, the counter never decreases, every id live
after the call is still below the counter, and every id that is live
after the call but was not live before is at least the old counter
value, hence distinct from every id that was ever allocated earlier in
the session. -/
theorem track_ids_monotone_never_reused (m : DetectionModel)
    (boxes : List Box) (w : Int)
    (hinv : ∀ k ∈ keys m.previous_centers, k < m.track_id) :
    m.track_id ≤ (track_movement m boxes w).1.track_id ∧
    (∀ k ∈ keys (track_movement m boxes w).1.previous_centers,
      k < (track_movement m boxes w).1.track_id) ∧
    (∀ k ∈ keys (track_movement m boxes w).1.previous_centers,
      k ∉ keys m.previous_centers → m.track_id ≤ k) := by
  have hnil : ∀ k ∈ keys ([] : List (Nat × Center)),
      k ∈ keys m.previous_centers ∨ (m.track_id ≤ k ∧ k < m.track_id) := by
    intro k hk
    simp [keys] at hk
  unfold track_movement
  split
  · obtain ⟨h1, h2, h3⟩ := foldl_ids_invariant doorStep
      (fun m1 mc cc box => doorStep_components m1 mc cc box) m boxes
      (m, Counts.zero, []) rfl (le_refl _) hnil
    refine ⟨h2, ?_, ?_⟩
    · intro k hk
      rcases h3 k hk with h | ⟨_, hhi⟩
      · exact lt_of_lt_of_le (hinv k h) h2
      · exact hhi
    · intro k hk hnot
      rcases h3 k hk with h | ⟨hlo, _⟩
      · exact absurd h hnot
      · exact hlo
  · obtain ⟨h1, h2, h3⟩ := foldl_ids_invariant (centerLineStep (Int.fdiv w 2))
      (fun m1 mc cc box => centerLineStep_components _ m1 mc cc box) m boxes
      (m, Counts.zero, []) rfl (le_refl _) hnil
    refine ⟨h2, ?_, ?_⟩
    · intro k hk
      rcases h3 k hk with h | ⟨_, hhi⟩
      · exact lt_of_lt_of_le (hinv k h) h2
      · exact hhi
    · intro k hk hnot
      rcases h3 k hk with h | ⟨hlo, _⟩
      · exact absurd h hnot
      · exact hlo

/-- Witness for C6: one live track 0 under counter 1; a far detection
allocates the fresh id 1 and the counter moves to 2. -/
theorem track_ids_monotone_never_reused_witness :
    (1 : Nat) ≤ (track_movement
      { tracking_threshold := 50
        previous_centers := [(0, (100, 100))]
        track_id := 1
        left_to_right := 0, right_to_left := 0, top_to_bottom := 0, bottom_to_top := 0
        door_defined := true
        door_area := some (100, 100, 300, 400)
        inside_direction := "right" } [(490, 490, 510, 510)] 640).1.track_id ∧
    (∀ k ∈ keys (track_movement
      { tracking_threshold := 50
        previous_centers := [(0, (100, 100))]
        track_id := 1
        left_to_right := 0, right_to_left := 0, top_to_bottom := 0, bottom_to_top := 0
        door_defined := true
        door_area := some (100, 100, 300, 400)
        inside_direction := "right" } [(490, 490, 510, 510)] 640).1.previous_centers,
      k < (track_movement
      { tracking_threshold := 50
        previous_centers := [(0, (100, 100))]
        track_id := 1
        left_to_right := 0, right_to_left := 0, top_to_bottom := 0, bottom_to_top := 0
        door_defined := true
        door_area := some (100, 100, 300, 400)
        inside_direction := "right" } [(490, 490, 510, 510)] 640).1.track_id) ∧
    (∀ k ∈ keys (track_movement
      { tracking_threshold := 50
        previous_centers := [(0, (100, 100))]
        track_id := 1
        left_to_right := 0, right_to_left := 0, top_to_bottom := 0, bottom_to_top := 0
        door_defined := true
        door_area := some (100, 100, 300, 400)
        inside_direction := "right" } [(490, 490, 510, 510)] 640).1.previous_centers,
      k ∉ keys [(0, ((100 : Int), (100 : Int)))] → 1 ≤ k) := by
  exact track_ids_monotone_never_reused
    { tracking_threshold := 50
      previous_centers := [(0, (100, 100))]
      track_id := 1
      left_to_right := 0, right_to_left := 0, top_to_bottom := 0, bottom_to_top := 0
      door_defined := true
      door_area := some (100, 100, 300, 400)
      inside_direction := "right" } [(490, 490, 510, 510)] 640
    (by intro k hk; simp [keys] at hk; subst hk; decide)

/-- Claim C10: with one live track 0 at (100, 100) and threshold 50, two
detections centred at (105, 100) and then (95, 100) in the same frame
are both matched to track 0; no new id is allocated and the retained
current-centers map holds only the later centroid (95, 100) under id 0,
the earlier one being overwritten. -/
theorem same_track_double_match_last_write_wins :
    (track_movement
      { tracking_threshold := 50
        previous_centers := [(0, (100, 100))]
        track_id := 1
        left_to_right := 0
        right_to_left := 0
        top_to_bottom := 0
        bottom_to_top := 0
        door_defined := true
        door_area := some (100, 100, 300, 400)
        inside_direction := "right" }
      [(95, 90, 115, 110), (85, 90, 105, 110)] 640).1.previous_centers =
        [(0, (95, 100))] ∧
    (track_movement
      { tracking_threshold := 50
        previous_centers := [(0, (100, 100))]
        track_id := 1
        left_to_right := 0
        right_to_left := 0
        top_to_bottom := 0
        bottom_to_top := 0
        door_defined := true
        door_area := some (100, 100, 300, 400)
        inside_direction := "right" }
      [(95, 90, 115, 110), (85, 90, 105, 110)] 640).1.track_id = 1 := by
  exact ⟨by decide, by decide⟩

end ProjectCCTV
